import Mathlib

/-!
Shallow embedding of the SSCTE serial-TCP bridge engine
(src/main/tcp_server.c, src/main/uart_manager.c) and proofs about it.

External effects (sockets, the ESP-TLS library, the UART driver) are
modelled as oracle environments passed to each function: each field of an
environment structure is the value the corresponding C library call would
return.  Every function additionally returns the list of externally
visible calls it performed (`Ev`), so that statements such as "returns
without touching the accept queue" are expressible.

The build modelled is the TLS-capable one (CONFIG_SSCTE_TLS_ENABLE
defined); the process-wide flag `g_secure_mode` is threaded explicitly as
a `secure : Bool` argument.
-/

namespace SSCTE

/-- ESP-IDF result code ESP_OK. -/
def ESP_OK : Int := 0

/-- ESP-IDF result code ESP_FAIL. -/
def ESP_FAIL : Int := -1

/-- ESP-IDF result code ESP_ERR_NO_MEM. -/
def ESP_ERR_NO_MEM : Int := 0x101

/-- ESP-IDF result code ESP_ERR_INVALID_ARG. -/
def ESP_ERR_INVALID_ARG : Int := 0x102

/-- One `uart_bridge_t` record (uart_manager.h).  Buffers are not data we
track byte-for-byte; the TLS handle is an abstract session identifier. -/
structure Bridge where
  enabled : Bool
  uart_port : Int
  tx_pin : Int
  rx_pin : Int
  baud_rate : Int
  tcp_port : Int
  server_sock : Int
  client_sock : Int
  tls_handle : Option Nat
  deriving Repr, DecidableEq

/-- Externally visible calls a bridge operation can perform. -/
inductive Ev where
  | selectListen (fd : Int)
  | acceptCall (fd : Int)
  | closeFd (fd : Int)
  | shutdownFd (fd : Int)
  | tlsInitCall
  | tlsHandshakeCall (fd : Int)
  | tlsSessionDelete
  | tlsConnDestroy
  | selectConn (fd : Int)
  | recvCall (fd : Int) (maxLen : Nat)
  | tlsReadCall (maxLen : Nat)
  | sendCall (fd : Int) (len : Nat)
  | tlsWriteCall (len : Nat)
  | uartWriteCall (len : Nat)
  | uartAvailCall
  | uartReadCall (len : Nat)
  deriving Repr, DecidableEq

/-- `cleanup_client` (tcp_server.c:143): destroy the TLS session in secure
mode, shutdown+close the plain socket otherwise, and reset `client_sock`.
Returns the new bridge and the destruction calls performed. -/
def cleanup_client (secure : Bool) (b : Bridge) : Bridge × List Ev :=
  let (b1, t1) :=
    if secure ∧ b.tls_handle.isSome then
      ({ b with tls_handle := none }, [Ev.tlsConnDestroy])
    else (b, [])
  let t2 :=
    if ¬ secure ∧ 0 ≤ b.client_sock then
      [Ev.shutdownFd b.client_sock, Ev.closeFd b.client_sock]
    else []
  ({ b1 with client_sock := -1 }, t1 ++ t2)

/-- Oracle for one `tcp_handle_new_connection` call: the results select(),
accept(), esp_tls_init() and esp_tls_server_session_create() would give. -/
structure AcceptEnv where
  selectRes : Int
  acceptRes : Int
  tlsInitOk : Bool
  tlsSession : Nat
  handshakeRes : Int
  deriving Repr, DecidableEq

/-- `tcp_handle_new_connection` (tcp_server.c:329): accept one client for
a bridge if none is connected.  Returns the new bridge, the boolean the C
function returns, and the calls performed. -/
def tcp_handle_new_connection (secure : Bool) (env : AcceptEnv) (b : Bridge) :
    Bridge × Bool × List Ev :=
  if ¬ b.enabled ∨ b.server_sock < 0 ∨ 0 ≤ b.client_sock ∨ b.tls_handle.isSome then
    (b, false, [])
  else if env.selectRes ≠ 1 then
    (b, false, [Ev.selectListen b.server_sock])
  else if env.acceptRes < 0 then
    (b, false, [Ev.selectListen b.server_sock, Ev.acceptCall b.server_sock])
  else
    let pre := [Ev.selectListen b.server_sock, Ev.acceptCall b.server_sock]
    if secure then
      if ¬ env.tlsInitOk then
        (b, false, pre ++ [Ev.tlsInitCall, Ev.closeFd env.acceptRes])
      else if env.handshakeRes ≠ 0 then
        (b, false, pre ++ [Ev.tlsInitCall, Ev.tlsHandshakeCall env.acceptRes,
                           Ev.tlsSessionDelete, Ev.closeFd env.acceptRes])
      else
        ({ b with tls_handle := some env.tlsSession, client_sock := -1 }, true,
         pre ++ [Ev.tlsInitCall, Ev.tlsHandshakeCall env.acceptRes])
    else
      ({ b with client_sock := env.acceptRes }, true, pre)

/-- Oracle for one `tcp_receive_data` call: the results of
esp_tls_get_conn_sockfd (secure mode only), select(), and
recv()/esp_tls_conn_read(). -/
structure RecvEnv where
  sockfdRes : Option Int
  selectRes : Int
  readRes : Int
  deriving Repr, DecidableEq

/-- `tcp_receive_data` (tcp_server.c:439): poll and read from the client
connection; on a zero or negative read after readiness, tear the
connection down and return -1. -/
def tcp_receive_data (secure : Bool) (env : RecvEnv) (b : Bridge)
    (bufNull : Bool) (max_len : Nat) : Bridge × Int × List Ev :=
  if ¬ b.enabled ∨ bufNull ∨ max_len = 0 ∨
     ((¬ secure ∧ b.client_sock < 0) ∨ (secure ∧ b.tls_handle = none)) then
    (b, -1, [])
  else
    match (if secure then env.sockfdRes else some b.client_sock) with
    | none => (b, -1, [])
    | some sockfd =>
      if sockfd < 0 then (b, -1, [])
      else if env.selectRes < 0 then (b, -1, [Ev.selectConn sockfd])
      else if env.selectRes = 0 then (b, 0, [Ev.selectConn sockfd])
      else
        let readEv := if secure then Ev.tlsReadCall max_len
                      else Ev.recvCall b.client_sock max_len
        if env.readRes ≤ 0 then
          let cl := cleanup_client secure b
          (cl.1, -1, [Ev.selectConn sockfd, readEv] ++ cl.2)
        else (b, env.readRes, [Ev.selectConn sockfd, readEv])

/-- Oracle for one `tcp_send_data` call: the result send() or
esp_tls_conn_write() would give. -/
structure SendEnv where
  sendRes : Int
  deriving Repr, DecidableEq

/-- `tcp_send_data` (tcp_server.c:537): send to the client; on a
non-positive result, tear the connection down and return -1. -/
def tcp_send_data (secure : Bool) (env : SendEnv) (b : Bridge)
    (dataNull : Bool) (len : Nat) : Bridge × Int × List Ev :=
  if ¬ b.enabled ∨ dataNull ∨ len = 0 ∨
     ((¬ secure ∧ b.client_sock < 0) ∨ (secure ∧ b.tls_handle = none)) then
    (b, -1, [])
  else
    let ev := if secure then Ev.tlsWriteCall len else Ev.sendCall b.client_sock len
    if env.sendRes ≤ 0 then
      let cl := cleanup_client secure b
      (cl.1, -1, [ev] ++ cl.2)
    else (b, env.sendRes, [ev])

/-- `tcp_is_client_connected` (tcp_server.c:581). -/
def tcp_is_client_connected (secure : Bool) (b : Bridge) : Bool :=
  if ¬ b.enabled then false
  else if secure then b.tls_handle.isSome
  else decide (0 ≤ b.client_sock)

/-- `uart_write_data` (uart_manager.c:320).  `env` is the result
uart_write_bytes would give; the bridge pointer may be null (`none`). -/
def uart_write_data (env : Int) (b : Option Bridge) (dataNull : Bool)
    (len : Nat) : Int × List Ev :=
  match b with
  | none => (-1, [])
  | some b =>
    if ¬ b.enabled ∨ dataNull ∨ len = 0 then (-1, [])
    else (env, [Ev.uartWriteCall len])

/-- `uart_read_data` (uart_manager.c:302).  `env` is the result
uart_read_bytes would give. -/
def uart_read_data (env : Int) (b : Option Bridge) (bufNull : Bool)
    (max_len : Nat) (_timeout_ms : Nat) : Int × List Ev :=
  match b with
  | none => (-1, [])
  | some b =>
    if ¬ b.enabled ∨ bufNull ∨ max_len = 0 then (-1, [])
    else (env, [Ev.uartReadCall max_len])

/-- `uart_get_available_bytes` (uart_manager.c:335).  `envRes` and
`envCount` are the status and byte count uart_get_buffered_data_len would
give; `availNull` models a null output pointer. -/
def uart_get_available_bytes (envRes : Int) (envCount : Nat)
    (b : Option Bridge) (availNull : Bool) : Int × Nat × List Ev :=
  match b with
  | none => (ESP_ERR_INVALID_ARG, 0, [])
  | some b =>
    if ¬ b.enabled ∨ availNull then (ESP_ERR_INVALID_ARG, 0, [])
    else (envRes, envCount, [Ev.uartAvailCall])

/-- Oracle for one `process_bridge_data` call: the oracles of every
library call it can make, in program order. -/
structure RelayEnv where
  recv : RecvEnv
  uartWriteRes : Int
  availRes : Int
  availCount : Nat
  uartReadRes : Int
  sendRes : Int
  deriving Repr, DecidableEq

/-- Direction 1 of `process_bridge_data` (tcp_server.c:611-623): read from
the connection and, if bytes arrived, write them to the UART.  Returns the
bridge after the network read, the read result, and the calls made. -/
def process_dir1 (secure : Bool) (bufSize : Nat) (env : RelayEnv)
    (b : Bridge) : Bridge × Int × List Ev :=
  let r := tcp_receive_data secure env.recv b false bufSize
  let tw :=
    if 0 < r.2.1 then
      (uart_write_data env.uartWriteRes (some r.1) false r.2.1.toNat).2
    else []
  (r.1, r.2.1, r.2.2 ++ tw)

/-- Direction 2 of `process_bridge_data` (tcp_server.c:626-642): query the
UART for buffered bytes and, if any, read them and send them to the
connection. -/
def process_dir2 (secure : Bool) (bufSize : Nat) (env : RelayEnv)
    (b : Bridge) : Bridge × List Ev :=
  let av := uart_get_available_bytes env.availRes env.availCount (some b) false
  if av.1 = ESP_OK ∧ 0 < av.2.1 then
    let to_read := if av.2.1 > bufSize then bufSize else av.2.1
    let ur := uart_read_data env.uartReadRes (some b) false to_read 0
    if 0 < ur.1 then
      let s := tcp_send_data secure ⟨env.sendRes⟩ b false ur.1.toNat
      (s.1, av.2.2 ++ ur.2 ++ s.2.2)
    else (b, av.2.2 ++ ur.2)
  else (b, av.2.2)

/-- `process_bridge_data` (tcp_server.c:604): one relay pass over a
bridge, direction 1 then direction 2; a no-op unless the bridge is
enabled and a client is connected. -/
def process_bridge_data (secure : Bool) (bufSize : Nat) (env : RelayEnv)
    (b : Bridge) : Bridge × List Ev :=
  if ¬ b.enabled ∨ ¬ tcp_is_client_connected secure b then (b, [])
  else
    let d1 := process_dir1 secure bufSize env b
    let d2 := process_dir2 secure bufSize env d1.1
    (d2.1, d1.2.2 ++ d2.2)

/-! ## The bridge registry (uart_manager.c) -/

/-- Per-UART parameters drawn from Kconfig (CONFIG_UARTn_TX_PIN and
friends). -/
structure UartParams where
  tx_pin : Int
  rx_pin : Int
  baud_rate : Int
  tcp_port : Int
  deriving Repr, DecidableEq

/-- Build-time configuration of uart_manager.c: bridge counts, the SoC's
UART count, and the per-UART Kconfig parameters. -/
structure Config where
  enableUartBridges : Nat
  availableBridgeUarts : Nat
  socUartNum : Nat
  params : Nat → UartParams

/-- Oracle for one `init_bridge` call: whether the two buffer mallocs
succeed and the results the three UART driver calls would give. -/
structure InitEnv where
  uartBufOk : Bool
  tcpBufOk : Bool
  driverInstallRes : Int
  paramConfigRes : Int
  setPinRes : Int
  deriving Repr, DecidableEq

/-- `init_uart` (uart_manager.c:34): driver install, then parameter
config, then pin assignment; the result is the first failure, or ESP_OK. -/
def init_uart (env : InitEnv) : Int :=
  if env.driverInstallRes ≠ ESP_OK then env.driverInstallRes
  else if env.paramConfigRes ≠ ESP_OK then env.paramConfigRes
  else env.setPinRes

/-- Whether the `switch (uart_num)` in init_bridge has a case for this
UART number: case 1 always, cases 2..4 only when SOC_UART_NUM exceeds
the number. -/
def uartNumSupported (cfg : Config) (uart_num : Nat) : Bool :=
  uart_num = 1 ∨ (2 ≤ uart_num ∧ uart_num ≤ 4 ∧ uart_num < cfg.socUartNum)

/-- `init_bridge` (uart_manager.c:77): configure, allocate and initialize
one bridge slot.  Acts on the single array slot the C function mutates;
returns the updated slot and the esp_err_t result. -/
def init_bridge (cfg : Config) (env : InitEnv) (bridge_idx : Nat)
    (b : Bridge) : Bridge × Int :=
  if cfg.availableBridgeUarts ≤ bridge_idx then (b, ESP_ERR_INVALID_ARG)
  else
    let uart_num := bridge_idx + 1
    if ¬ uartNumSupported cfg uart_num then (b, ESP_ERR_INVALID_ARG)
    else
      let p := cfg.params uart_num
      let b := { b with uart_port := (uart_num : Int), tx_pin := p.tx_pin,
                        rx_pin := p.rx_pin, baud_rate := p.baud_rate,
                        tcp_port := p.tcp_port }
      if ¬ (env.uartBufOk ∧ env.tcpBufOk) then (b, ESP_ERR_NO_MEM)
      else
        let ret := init_uart env
        if ret ≠ ESP_OK then (b, ret)
        else
          ({ b with server_sock := -1, client_sock := -1, tls_handle := none,
                    enabled := true }, ESP_OK)

/-- The bridge record uart_manager_init resets every slot to before the
init loop (memset to zero, then the explicit field writes). -/
def initialBridge : Bridge :=
  { enabled := false, uart_port := -1, tx_pin := 0, rx_pin := 0,
    baud_rate := 0, tcp_port := 0, server_sock := -1, client_sock := -1,
    tls_handle := none }

/-- The uart_manager module state: the static `bridges` array and the
`active_bridges` counter. -/
structure UartMgrState where
  bridges : List Bridge
  active_bridges : Nat
  deriving Repr, DecidableEq

/-- One iteration of the init loop of `uart_manager_init`: run
init_bridge on slot `i` and bump the success counter on ESP_OK. -/
def uart_init_step (cfg : Config) (envs : Nat → InitEnv)
    (acc : List Bridge × Nat) (i : Nat) : List Bridge × Nat :=
  match acc.1[i]? with
  | none => acc
  | some b =>
    let r := init_bridge cfg (envs i) i b
    (acc.1.set i r.1, if r.2 = ESP_OK then acc.2 + 1 else acc.2)

/-- The clamped number of bridges `uart_manager_init` attempts
(uart_manager.c:194-198). -/
def clampedBridges (cfg : Config) : Nat :=
  if cfg.availableBridgeUarts < cfg.enableUartBridges then
    cfg.availableBridgeUarts
  else cfg.enableUartBridges

/-- `uart_manager_init` (uart_manager.c:178): reset all slots, clamp the
requested bridge count, run init_bridge for each index counting
successes, and fail only when no bridge initialized. -/
def uart_manager_init (cfg : Config) (envs : Nat → InitEnv) :
    UartMgrState × Int :=
  let base := List.replicate cfg.availableBridgeUarts initialBridge
  let fin := (List.range (clampedBridges cfg)).foldl (uart_init_step cfg envs)
    (base, 0)
  if fin.2 = 0 then ({ bridges := fin.1, active_bridges := fin.2 }, ESP_FAIL)
  else ({ bridges := fin.1, active_bridges := fin.2 }, ESP_OK)

/-- `uart_manager_get_active_count` (uart_manager.c:273). -/
def uart_manager_get_active_count (st : UartMgrState) : Nat :=
  st.active_bridges

/-! ## Registry-level TCP loops (tcp_server.c) -/

/-- `tcp_handle_new_connections` (tcp_server.c:410): try to accept a new
client for each bridge of the first `uart_manager_get_active_count`
array slots whose enabled flag is set.  Also returns the list of array
indices for which the per-bridge accept was actually invoked. -/
def tcp_handle_new_connections (secure : Bool) (envs : Nat → AcceptEnv)
    (st : UartMgrState) : UartMgrState × List Nat :=
  (List.range (uart_manager_get_active_count st)).foldl
    (fun (acc : UartMgrState × List Nat) i =>
      match acc.1.bridges[i]? with
      | none => acc
      | some b =>
        if b.enabled then
          let r := tcp_handle_new_connection secure (envs i) b
          ({ acc.1 with bridges := acc.1.bridges.set i r.1 }, acc.2 ++ [i])
        else acc)
    (st, [])

/-- `tcp_process_data` (tcp_server.c:652): run one relay pass for each
bridge of the first `uart_manager_get_active_count` array slots whose
enabled flag is set.  Also returns the list of array indices for which
the per-bridge relay was actually invoked. -/
def tcp_process_data (secure : Bool) (bufSize : Nat)
    (envs : Nat → RelayEnv) (st : UartMgrState) :
    UartMgrState × List Nat :=
  (List.range (uart_manager_get_active_count st)).foldl
    (fun (acc : UartMgrState × List Nat) i =>
      match acc.1.bridges[i]? with
      | none => acc
      | some b =>
        if b.enabled then
          let r := process_bridge_data secure bufSize (envs i) b
          ({ acc.1 with bridges := acc.1.bridges.set i r.1 }, acc.2 ++ [i])
        else acc)
    (st, [])

/-! ## Server initialization and shutdown (tcp_server.c) -/

/-- Oracle for one iteration of the tcp_server_init loop: the results
socket(), bind() and listen() would give. -/
structure SockEnv where
  socketRes : Int
  bindRes : Int
  listenRes : Int
  deriving Repr, DecidableEq

/-- One iteration of the tcp_server_init loop body (tcp_server.c:269-308):
create, bind and listen; `none` models the `goto err` paths. -/
def tcp_server_setup (env : SockEnv) (b : Bridge) : Option Bridge :=
  if env.socketRes < 0 then none
  else if env.bindRes < 0 then none
  else if env.listenRes < 0 then none
  else some { b with server_sock := env.socketRes, client_sock := -1,
                     tls_handle := none }

/-- `tcp_cleanup` (tcp_server.c:164): for each of the first
`active_bridges` slots that is enabled, tear down its client and close
its listening socket; in secure mode drop the TLS config and clear the
mode flag.  Returns the new mode flag and state. -/
def tcp_cleanup (secure : Bool) (st : UartMgrState) : Bool × UartMgrState :=
  let bs := (List.range (uart_manager_get_active_count st)).foldl
    (fun (bs : List Bridge) i =>
      match bs[i]? with
      | none => bs
      | some b =>
        if b.enabled then
          let b1 := (cleanup_client secure b).1
          let b2 := if 0 ≤ b1.server_sock then { b1 with server_sock := -1 }
                    else b1
          bs.set i b2
        else bs)
    st.bridges
  (if secure then false else secure, { st with bridges := bs })

/-- The per-bridge loop of `tcp_server_init` (tcp_server.c:259-309):
`Sum.inl` marks the `goto err` exit with the bridges as mutated so far. -/
def tcp_server_init_loop (envs : Nat → SockEnv) (n : Nat) (bs0 : List Bridge) :
    List Bridge ⊕ List Bridge :=
  (List.range n).foldl
    (fun (acc : List Bridge ⊕ List Bridge) i =>
      match acc with
      | Sum.inl bs => Sum.inl bs
      | Sum.inr bs =>
        match bs[i]? with
        | none => Sum.inr bs
        | some b =>
          if b.enabled then
            match tcp_server_setup (envs i) b with
            | some b2 => Sum.inr (bs.set i b2)
            | none => Sum.inl bs
          else Sum.inr bs)
    (Sum.inr bs0)

/-- `tcp_server_init` (tcp_server.c:208): fail when no bridge is active;
otherwise set the process-wide secure-mode flag from the presence of the
TLS configuration, then create a listening socket for every enabled
bridge of the first `active_bridges` slots, tearing everything down on
the first socket failure.  `prevSecure` is the value of `g_secure_mode`
before the call.  Returns the new mode flag, the new state, and the
esp_err_t result. -/
def tcp_server_init (tlsPresent : Bool) (envs : Nat → SockEnv)
    (prevSecure : Bool) (st : UartMgrState) :
    Bool × UartMgrState × Int :=
  if uart_manager_get_active_count st = 0 then (prevSecure, st, ESP_FAIL)
  else
    match tcp_server_init_loop envs (uart_manager_get_active_count st)
        st.bridges with
    | Sum.inr bs => (tlsPresent, { st with bridges := bs }, ESP_OK)
    | Sum.inl bs =>
      ((tcp_cleanup tlsPresent { st with bridges := bs }).1,
       (tcp_cleanup tlsPresent { st with bridges := bs }).2, ESP_FAIL)

/-! ## Connection-shape predicates and engine operations -/

/-- A bridge holds a plain connection: its client socket is valid. -/
def holdsPlain (b : Bridge) : Prop := 0 ≤ b.client_sock

/-- A bridge holds a secure connection: its TLS handle is non-null. -/
def holdsSecure (b : Bridge) : Prop := b.tls_handle.isSome

/-- The per-mode shape invariant: in secure mode the client socket is
never valid, in plain mode the TLS handle is never populated. -/
def ModeInv (secure : Bool) (b : Bridge) : Prop :=
  if secure then b.client_sock < 0 else b.tls_handle = none

/-- One steady-state engine operation on a bridge, with its oracle. -/
inductive Op where
  | acceptOp (env : AcceptEnv)
  | receiveOp (env : RecvEnv) (bufNull : Bool) (len : Nat)
  | sendOp (env : SendEnv) (dataNull : Bool) (len : Nat)
  | relayOp (bufSize : Nat) (env : RelayEnv)

/-- The bridge state an operation leaves behind. -/
def applyOp (secure : Bool) (op : Op) (b : Bridge) : Bridge :=
  match op with
  | .acceptOp env => (tcp_handle_new_connection secure env b).1
  | .receiveOp env bufNull len => (tcp_receive_data secure env b bufNull len).1
  | .sendOp env dataNull len => (tcp_send_data secure env b dataNull len).1
  | .relayOp bufSize env => (process_bridge_data secure bufSize env b).1

/-- The bridge state after a whole sequence of engine operations. -/
def applyOps (secure : Bool) (ops : List Op) (b : Bridge) : Bridge :=
  ops.foldl (fun b op => applyOp secure op b) b

/-- The call is a network read (recv or TLS read). -/
def Ev.isNetRead : Ev → Bool
  | Ev.recvCall _ _ => true
  | Ev.tlsReadCall _ => true
  | _ => false

/-- The call is a network send (send or TLS write). -/
def Ev.isNetSend : Ev → Bool
  | Ev.sendCall _ _ => true
  | Ev.tlsWriteCall _ => true
  | _ => false

/-- The call is a device write. -/
def Ev.isUartWrite : Ev → Bool
  | Ev.uartWriteCall _ => true
  | _ => false

/-- The call is a device read. -/
def Ev.isUartRead : Ev → Bool
  | Ev.uartReadCall _ => true
  | _ => false

/-- The call is a device available-byte query. -/
def Ev.isUartAvail : Ev → Bool
  | Ev.uartAvailCall => true
  | _ => false

/-! ## Concrete fixtures used in closed-form checks -/

/-- A plain-mode bridge with a connected client. -/
def plainConnected : Bridge :=
  { enabled := true, uart_port := 1, tx_pin := 10, rx_pin := 9,
    baud_rate := 115200, tcp_port := 9001, server_sock := 4, client_sock := 5,
    tls_handle := none }

/-- A secure-mode bridge with an established TLS session. -/
def secureConnected : Bridge :=
  { plainConnected with client_sock := -1, tls_handle := some 7 }

/-- An enabled bridge with no client. -/
def idleBridge : Bridge := { plainConnected with client_sock := -1 }

/-- A disabled bridge slot. -/
def disabledBridge : Bridge := { plainConnected with enabled := false }

/-- A two-bridge build: two bridges requested, two UART slots available,
SOC_UART_NUM = 3 (UART1 and UART2 both supported). -/
def cfgTwoBridges : Config :=
  { enableUartBridges := 2, availableBridgeUarts := 2, socUartNum := 3,
    params := fun _ => { tx_pin := 10, rx_pin := 9, baud_rate := 115200,
                         tcp_port := 9001 } }

/-- Init oracles where bridge 0's UART driver install fails and bridge 1
initializes cleanly. -/
def envsFirstFails : Nat → InitEnv := fun i =>
  if i = 0 then { uartBufOk := true, tcpBufOk := true,
                  driverInstallRes := ESP_FAIL, paramConfigRes := 0,
                  setPinRes := 0 }
  else { uartBufOk := true, tcpBufOk := true, driverInstallRes := 0,
         paramConfigRes := 0, setPinRes := 0 }

/-! ## Helper lemmas -/

/-- A successful accept attempt: bridge enabled, listening, unconnected,
select ready, accept succeeding, and (in secure mode) TLS init and
handshake succeeding, makes `tcp_handle_new_connection` report true. -/
theorem tcp_accept_success (secure : Bool) (env : AcceptEnv) (b : Bridge)
    (hen : b.enabled = true) (hsrv : 0 ≤ b.server_sock)
    (hnoc : b.client_sock < 0) (hnot : b.tls_handle = none)
    (hsel : env.selectRes = 1) (hacc : 0 ≤ env.acceptRes)
    (hsec : secure = true → env.tlsInitOk = true ∧ env.handshakeRes = 0) :
    (tcp_handle_new_connection secure env b).2.1 = true := by
  have hg : ¬ (¬ b.enabled ∨ b.server_sock < 0 ∨ 0 ≤ b.client_sock ∨
      b.tls_handle.isSome) := by
    simp [hen, hnot, not_lt.mpr hsrv, not_le.mpr hnoc]
  unfold tcp_handle_new_connection
  rw [if_neg hg, if_neg (by simp [hsel]), if_neg (not_lt.mpr hacc)]
  cases secure
  · simp
  · obtain ⟨h1, h2⟩ := hsec rfl
    simp [h1, h2]

/-- A ready network read with a positive result leaves the bridge
untouched and returns the byte count. -/
theorem tcp_receive_data_success (secure : Bool) (env : RecvEnv)
    (b : Bridge) (len : Nat) (sockfd : Int)
    (hen : b.enabled = true) (hlen : len ≠ 0)
    (hconn : (secure = false ∧ 0 ≤ b.client_sock) ∨
             (secure = true ∧ b.tls_handle.isSome))
    (hsfd : secure = true → env.sockfdRes = some sockfd ∧ 0 ≤ sockfd)
    (hsel : env.selectRes = 1) (hread : 0 < env.readRes) :
    tcp_receive_data secure env b false len =
      (b, env.readRes,
       [Ev.selectConn (if secure then sockfd else b.client_sock),
        if secure then Ev.tlsReadCall len else Ev.recvCall b.client_sock len]) := by
  cases secure
  · obtain ⟨-, hcs⟩ := hconn.resolve_right (by simp)
    unfold tcp_receive_data
    rw [if_neg (by simp [hen, hlen, not_lt.mpr hcs])]
    simp only [Bool.false_eq_true, if_false]
    rw [if_neg (not_lt.mpr hcs), if_neg (by simp [hsel]),
        if_neg (by simp [hsel]), if_neg (not_le.mpr hread)]
  · obtain ⟨-, hts⟩ := hconn.resolve_left (by simp)
    obtain ⟨hs1, hs2⟩ := hsfd rfl
    unfold tcp_receive_data
    rw [if_neg (by simp [hen, hlen, Option.isSome_iff_ne_none.mp hts])]
    simp only [if_true, hs1]
    rw [if_neg (not_lt.mpr hs2), if_neg (by simp [hsel]),
        if_neg (by simp [hsel]), if_neg (not_le.mpr hread)]

/-- A ready network read with a zero or negative result tears the
connection down: the bridge becomes `cleanup_client`'s output and -1 is
returned, with the destruction calls appended to the trace.  The output
does not depend on the value of the non-positive read result. -/
theorem tcp_receive_data_teardown (secure : Bool) (env : RecvEnv)
    (b : Bridge) (len : Nat) (sockfd : Int)
    (hen : b.enabled = true) (hlen : len ≠ 0)
    (hconn : (secure = false ∧ 0 ≤ b.client_sock) ∨
             (secure = true ∧ b.tls_handle.isSome))
    (hsfd : secure = true → env.sockfdRes = some sockfd ∧ 0 ≤ sockfd)
    (hsel : env.selectRes = 1) (hread : env.readRes ≤ 0) :
    tcp_receive_data secure env b false len =
      ((cleanup_client secure b).1, -1,
       [Ev.selectConn (if secure then sockfd else b.client_sock),
        if secure then Ev.tlsReadCall len else Ev.recvCall b.client_sock len]
         ++ (cleanup_client secure b).2) := by
  cases secure
  · obtain ⟨-, hcs⟩ := hconn.resolve_right (by simp)
    unfold tcp_receive_data
    rw [if_neg (by simp [hen, hlen, not_lt.mpr hcs])]
    simp only [Bool.false_eq_true, if_false]
    rw [if_neg (not_lt.mpr hcs), if_neg (by simp [hsel]),
        if_neg (by simp [hsel]), if_pos hread]
  · obtain ⟨-, hts⟩ := hconn.resolve_left (by simp)
    obtain ⟨hs1, hs2⟩ := hsfd rfl
    unfold tcp_receive_data
    rw [if_neg (by simp [hen, hlen, Option.isSome_iff_ne_none.mp hts])]
    simp only [if_true, hs1]
    rw [if_neg (not_lt.mpr hs2), if_neg (by simp [hsel]),
        if_neg (by simp [hsel]), if_pos hread]

/-- `cleanup_client` never touches the enabled flag. -/
theorem cleanup_client_enabled (secure : Bool) (b : Bridge) :
    (cleanup_client secure b).1.enabled = b.enabled := by
  unfold cleanup_client
  split_ifs <;> rfl

/-- `cleanup_client` never touches the listening socket. -/
theorem cleanup_client_server (secure : Bool) (b : Bridge) :
    (cleanup_client secure b).1.server_sock = b.server_sock := by
  unfold cleanup_client
  split_ifs <;> rfl

/-- `cleanup_client` always resets the client socket. -/
theorem cleanup_client_client (secure : Bool) (b : Bridge) :
    (cleanup_client secure b).1.client_sock = -1 := by
  unfold cleanup_client
  split_ifs <;> rfl

/-- `cleanup_client` clears the TLS handle in secure mode and leaves it
alone otherwise. -/
theorem cleanup_client_tls (secure : Bool) (b : Bridge) :
    (cleanup_client secure b).1.tls_handle =
      if secure ∧ b.tls_handle.isSome then none else b.tls_handle := by
  unfold cleanup_client
  split_ifs <;> rfl

/-! ## Claims -/

/-- Claim C2: for every bridge with a client connection present (plain
client socket valid or TLS handle non-null), `tcp_handle_new_connection`
returns false, changes nothing, and performs no readiness check and no
accept on the listening socket. -/
theorem C2_accept_noop_when_connected (secure : Bool) (env : AcceptEnv)
    (b : Bridge) (h : 0 ≤ b.client_sock ∨ b.tls_handle.isSome) :
    tcp_handle_new_connection secure env b = (b, false, []) := by
  unfold tcp_handle_new_connection
  rw [if_pos]
  rcases h with h | h
  · exact Or.inr (Or.inr (Or.inl h))
  · exact Or.inr (Or.inr (Or.inr h))

/-- Concrete check of C2 on a plain and on a secure connected bridge. -/
theorem C2_accept_noop_when_connected_witness :
    tcp_handle_new_connection false ⟨1, 6, true, 0, 0⟩ plainConnected =
      (plainConnected, false, []) ∧
    tcp_handle_new_connection true ⟨1, 6, true, 0, 0⟩ secureConnected =
      (secureConnected, false, []) :=
  ⟨C2_accept_noop_when_connected false ⟨1, 6, true, 0, 0⟩ plainConnected
     (Or.inl (by decide)),
   C2_accept_noop_when_connected true ⟨1, 6, true, 0, 0⟩ secureConnected
     (Or.inr (by decide))⟩

/-- Claim C8: calling `tcp_receive_data`, `tcp_send_data` or
`uart_read_data` with a null buffer, a zero length, or a disabled bridge
returns -1, performs no external call, and leaves the bridge unchanged. -/
theorem C8_contract_violations_safe (secure : Bool) (renv : RecvEnv)
    (senv : SendEnv) (uenv : Int) (tmo : Nat) (b : Bridge) (bufNull : Bool)
    (len : Nat) (h : b.enabled = false ∨ bufNull = true ∨ len = 0) :
    tcp_receive_data secure renv b bufNull len = (b, -1, []) ∧
    tcp_send_data secure senv b bufNull len = (b, -1, []) ∧
    uart_read_data uenv (some b) bufNull len tmo = (-1, []) := by
  have hg : ¬ b.enabled ∨ (bufNull = true) ∨ len = 0 := by
    rcases h with h | h | h
    · exact Or.inl (by simp [h])
    · exact Or.inr (Or.inl h)
    · exact Or.inr (Or.inr h)
  refine ⟨?_, ?_, ?_⟩
  · unfold tcp_receive_data
    rw [if_pos]
    rcases hg with h | h | h
    · exact Or.inl h
    · exact Or.inr (Or.inl h)
    · exact Or.inr (Or.inr (Or.inl h))
  · unfold tcp_send_data
    rw [if_pos]
    rcases hg with h | h | h
    · exact Or.inl h
    · exact Or.inr (Or.inl h)
    · exact Or.inr (Or.inr (Or.inl h))
  · unfold uart_read_data
    exact if_pos hg

/-- Concrete check of C8: a disabled bridge, a null buffer and a zero
length are each rejected. -/
theorem C8_contract_violations_safe_witness :
    (tcp_receive_data false ⟨none, 1, 4⟩ disabledBridge false 16 =
       (disabledBridge, -1, []) ∧
     tcp_send_data false ⟨4⟩ disabledBridge false 16 =
       (disabledBridge, -1, []) ∧
     uart_read_data 4 (some disabledBridge) false 16 20 = (-1, [])) ∧
    (tcp_receive_data false ⟨none, 1, 4⟩ plainConnected true 16 =
       (plainConnected, -1, []) ∧
     tcp_send_data false ⟨4⟩ plainConnected true 16 =
       (plainConnected, -1, []) ∧
     uart_read_data 4 (some plainConnected) true 16 20 = (-1, [])) ∧
    (tcp_receive_data false ⟨none, 1, 4⟩ plainConnected false 0 =
       (plainConnected, -1, []) ∧
     tcp_send_data false ⟨4⟩ plainConnected false 0 =
       (plainConnected, -1, []) ∧
     uart_read_data 4 (some plainConnected) false 0 20 = (-1, [])) :=
  ⟨C8_contract_violations_safe false ⟨none, 1, 4⟩ ⟨4⟩ 4 20 disabledBridge
     false 16 (Or.inl (by decide)),
   C8_contract_violations_safe false ⟨none, 1, 4⟩ ⟨4⟩ 4 20 plainConnected
     true 16 (Or.inr (Or.inl rfl)),
   C8_contract_violations_safe false ⟨none, 1, 4⟩ ⟨4⟩ 4 20 plainConnected
     false 0 (Or.inr (Or.inr rfl))⟩

/-- Claim C9: in the device-to-network direction a positive but short
send only logs — connection state is exactly preserved — while a
non-positive send result is exactly the case in which the connection is
torn down; and within a relay pass the state after direction 2 is exactly
`tcp_send_data`'s output. -/
theorem C9_short_send_no_teardown (secure : Bool) (b : Bridge)
    (sendRes : Int) (len : Nat) (bufSize : Nat) (env : RelayEnv)
    (hen : b.enabled = true) (hlen : len ≠ 0)
    (hconn : (secure = false ∧ 0 ≤ b.client_sock) ∨
             (secure = true ∧ b.tls_handle.isSome)) :
    (0 < sendRes →
      tcp_send_data secure ⟨sendRes⟩ b false len =
        (b, sendRes,
         [if secure then Ev.tlsWriteCall len else Ev.sendCall b.client_sock len])) ∧
    (sendRes ≤ 0 →
      tcp_send_data secure ⟨sendRes⟩ b false len =
        ((cleanup_client secure b).1, -1,
         [if secure then Ev.tlsWriteCall len else Ev.sendCall b.client_sock len]
           ++ (cleanup_client secure b).2) ∧
      (tcp_send_data secure ⟨sendRes⟩ b false len).1.client_sock = -1 ∧
      (secure = true → (tcp_send_data secure ⟨sendRes⟩ b false len).1.tls_handle = none)) ∧
    (env.availRes = ESP_OK → 0 < env.availCount → 0 < env.uartReadRes →
      0 < bufSize →
      (process_dir2 secure bufSize env b).1 =
        (tcp_send_data secure ⟨env.sendRes⟩ b false env.uartReadRes.toNat).1) := by
  have hg : ¬ (¬ b.enabled ∨ (False : Prop) ∨ len = 0 ∨
      ((¬ secure ∧ b.client_sock < 0) ∨ (secure ∧ b.tls_handle = none))) := by
    rcases hconn with ⟨hs, hc⟩ | ⟨hs, hc⟩
    · simp [hen, hlen, hs, not_lt.mpr hc]
    · simp [hen, hlen, hs, Option.isSome_iff_ne_none.mp hc]
  refine ⟨?_, ?_, ?_⟩
  · intro hpos
    unfold tcp_send_data
    rw [if_neg (by simpa using hg), if_neg (not_le.mpr hpos)]
  · intro hnp
    have he : tcp_send_data secure ⟨sendRes⟩ b false len =
        ((cleanup_client secure b).1, -1,
         [if secure then Ev.tlsWriteCall len else Ev.sendCall b.client_sock len]
           ++ (cleanup_client secure b).2) := by
      unfold tcp_send_data
      rw [if_neg (by simpa using hg), if_pos hnp]
    refine ⟨he, ?_, ?_⟩
    · rw [he]
      simp [cleanup_client]
    · intro hs
      rw [he]
      subst hs
      obtain ⟨-, hc⟩ := hconn.resolve_left (by simp)
      simp [cleanup_client, hc]
  · intro ha hc hr hb
    have hav : uart_get_available_bytes env.availRes env.availCount (some b) false
        = (env.availRes, env.availCount, [Ev.uartAvailCall]) := by
      unfold uart_get_available_bytes
      exact if_neg (by simp [hen])
    have hto : (if env.availCount > bufSize then bufSize else env.availCount) ≠ 0 := by
      split <;> omega
    have hur : uart_read_data env.uartReadRes (some b) false
        (if env.availCount > bufSize then bufSize else env.availCount) 0
        = (env.uartReadRes, [Ev.uartReadCall
            (if env.availCount > bufSize then bufSize else env.availCount)]) := by
      unfold uart_read_data
      exact if_neg (by simp [hen, hto])
    unfold process_dir2
    rw [hav]
    simp only [ha, hc, and_self, if_pos, hur]
    simp [hr]

/-- Concrete check of C9 in plain mode: a 3-of-10-byte short send leaves
the connected bridge exactly as it was. -/
theorem C9_short_send_no_teardown_witness :
    tcp_send_data false ⟨3⟩ plainConnected false 10 =
      (plainConnected, 3, [Ev.sendCall 5 10]) := by
  have h := C9_short_send_no_teardown false plainConnected 3 10 16
    ⟨⟨none, 0, 0⟩, 0, 0, 5, 3, 2⟩ (by decide) (by decide)
    (Or.inl ⟨rfl, by decide⟩)
  have h1 := h.1 (by decide)
  simpa using h1

/-- Claim C4: in secure mode a failed TLS handshake (init failure or
nonzero session-create result) closes the fresh client socket, deletes
any partial TLS session, returns false, never closes the listening
socket, leaves the bridge unchanged and unconnected, and a later
well-formed client attempt succeeds. -/
theorem C4_handshake_failure_recoverable (env env2 : AcceptEnv) (b : Bridge)
    (hen : b.enabled = true) (hsrv : 0 ≤ b.server_sock)
    (hnoc : b.client_sock < 0) (hnot : b.tls_handle = none)
    (hsel : env.selectRes = 1) (hacc : 0 ≤ env.acceptRes)
    (hfd : env.acceptRes ≠ b.server_sock)
    (hfail : env.tlsInitOk = false ∨ env.handshakeRes ≠ 0)
    (hsel2 : env2.selectRes = 1) (hacc2 : 0 ≤ env2.acceptRes)
    (hok2 : env2.tlsInitOk = true) (hhs2 : env2.handshakeRes = 0) :
    (tcp_handle_new_connection true env b).1 = b ∧
    (tcp_handle_new_connection true env b).2.1 = false ∧
    Ev.closeFd env.acceptRes ∈ (tcp_handle_new_connection true env b).2.2 ∧
    (env.tlsInitOk = true →
      Ev.tlsSessionDelete ∈ (tcp_handle_new_connection true env b).2.2) ∧
    Ev.closeFd b.server_sock ∉ (tcp_handle_new_connection true env b).2.2 ∧
    (tcp_handle_new_connection true env2
        (tcp_handle_new_connection true env b).1).2.1 = true := by
  have hg : ¬ (¬ b.enabled ∨ b.server_sock < 0 ∨ 0 ≤ b.client_sock ∨
      b.tls_handle.isSome) := by
    simp [hen, hnot, not_lt.mpr hsrv, not_le.mpr hnoc]
  have hacc2b : (tcp_handle_new_connection true env2 b).2.1 = true :=
    tcp_accept_success true env2 b hen hsrv hnoc hnot hsel2 hacc2
      (fun _ => ⟨hok2, hhs2⟩)
  cases htls : env.tlsInitOk
  · have he : tcp_handle_new_connection true env b =
        (b, false, [Ev.selectListen b.server_sock, Ev.acceptCall b.server_sock,
                    Ev.tlsInitCall, Ev.closeFd env.acceptRes]) := by
      unfold tcp_handle_new_connection
      rw [if_neg hg, if_neg (by simp [hsel]), if_neg (not_lt.mpr hacc)]
      simp [htls]
    rw [he]
    refine ⟨rfl, rfl, by simp, by simp [htls], ?_, by rw [hacc2b]⟩
    simp [Ne.symm hfd]
  · have hhs : env.handshakeRes ≠ 0 := by
      rcases hfail with hf | hf
      · rw [htls] at hf; exact absurd hf (by simp)
      · exact hf
    have he : tcp_handle_new_connection true env b =
        (b, false, [Ev.selectListen b.server_sock, Ev.acceptCall b.server_sock,
                    Ev.tlsInitCall, Ev.tlsHandshakeCall env.acceptRes,
                    Ev.tlsSessionDelete, Ev.closeFd env.acceptRes]) := by
      unfold tcp_handle_new_connection
      rw [if_neg hg, if_neg (by simp [hsel]), if_neg (not_lt.mpr hacc)]
      simp [htls, hhs]
    rw [he]
    refine ⟨rfl, rfl, by simp, by simp, ?_, by rw [hacc2b]⟩
    simp [Ne.symm hfd]

/-- Concrete check of C4: handshake result 5 on client socket 6, then a
clean handshake succeeds. -/
theorem C4_handshake_failure_recoverable_witness :
    (tcp_handle_new_connection true ⟨1, 6, true, 3, 5⟩ idleBridge).1 = idleBridge ∧
    (tcp_handle_new_connection true ⟨1, 6, true, 3, 5⟩ idleBridge).2.1 = false ∧
    Ev.closeFd 6 ∈ (tcp_handle_new_connection true ⟨1, 6, true, 3, 5⟩ idleBridge).2.2 ∧
    ((⟨1, 6, true, 3, 5⟩ : AcceptEnv).tlsInitOk = true →
      Ev.tlsSessionDelete ∈
        (tcp_handle_new_connection true ⟨1, 6, true, 3, 5⟩ idleBridge).2.2) ∧
    Ev.closeFd idleBridge.server_sock ∉
      (tcp_handle_new_connection true ⟨1, 6, true, 3, 5⟩ idleBridge).2.2 ∧
    (tcp_handle_new_connection true ⟨1, 8, true, 4, 0⟩
        (tcp_handle_new_connection true ⟨1, 6, true, 3, 5⟩ idleBridge).1).2.1 = true :=
  C4_handshake_failure_recoverable ⟨1, 6, true, 3, 5⟩ ⟨1, 8, true, 4, 0⟩
    idleBridge (by decide) (by decide) (by decide) (by decide) rfl (by decide)
    (by decide) (Or.inr (by decide)) rfl (by decide) rfl rfl

/-- Claim C10: when the network read delivered bytes, the direction-1
device write is performed but the bridge — in particular its client
socket and TLS handle — is exactly what it was before, whatever
uart_write_bytes returns. -/
theorem C10_uart_write_failure_no_teardown (secure : Bool) (bufSize : Nat)
    (env : RelayEnv) (b : Bridge) (sockfd : Int)
    (hen : b.enabled = true) (hbuf : bufSize ≠ 0)
    (hconn : (secure = false ∧ 0 ≤ b.client_sock) ∨
             (secure = true ∧ b.tls_handle.isSome))
    (hsfd : secure = true → env.recv.sockfdRes = some sockfd ∧ 0 ≤ sockfd)
    (hsel : env.recv.selectRes = 1) (hread : 0 < env.recv.readRes) :
    (process_dir1 secure bufSize env b).1 = b ∧
    (process_dir1 secure bufSize env b).1.client_sock = b.client_sock ∧
    (process_dir1 secure bufSize env b).1.tls_handle = b.tls_handle ∧
    Ev.uartWriteCall env.recv.readRes.toNat ∈
      (process_dir1 secure bufSize env b).2.2 := by
  have hr := tcp_receive_data_success secure env.recv b bufSize sockfd hen hbuf
    hconn hsfd hsel hread
  have htn : env.recv.readRes.toNat ≠ 0 := by
    simp [Int.toNat_eq_zero, not_le.mpr hread]
  have hw : uart_write_data env.uartWriteRes (some b) false env.recv.readRes.toNat
      = (env.uartWriteRes, [Ev.uartWriteCall env.recv.readRes.toNat]) := by
    unfold uart_write_data
    exact if_neg (by simp [hen, htn])
  unfold process_dir1
  rw [hr]
  simp [hread, hw]

/-- Concrete check of C10 in plain mode: 4 bytes received, device write
returns -1, connection fields unchanged. -/
theorem C10_uart_write_failure_no_teardown_witness :
    (process_dir1 false 16 ⟨⟨none, 1, 4⟩, -1, 0, 0, 0, 0⟩ plainConnected).1 =
      plainConnected ∧
    (process_dir1 false 16 ⟨⟨none, 1, 4⟩, -1, 0, 0, 0, 0⟩ plainConnected).1.client_sock =
      plainConnected.client_sock ∧
    (process_dir1 false 16 ⟨⟨none, 1, 4⟩, -1, 0, 0, 0, 0⟩ plainConnected).1.tls_handle =
      plainConnected.tls_handle ∧
    Ev.uartWriteCall (Int.toNat 4) ∈
      (process_dir1 false 16 ⟨⟨none, 1, 4⟩, -1, 0, 0, 0, 0⟩ plainConnected).2.2 :=
  C10_uart_write_failure_no_teardown false 16 ⟨⟨none, 1, 4⟩, -1, 0, 0, 0, 0⟩
    plainConnected 0 (by decide) (by decide) (Or.inl ⟨rfl, by decide⟩)
    (by intro h; exact absurd h (by decide)) rfl (by decide)

/-- Claim C3: after a positive readiness check, a zero-byte read (orderly
peer close) and a negative read (error) are handled identically: the same
-1 result and the same new state; the connection handle is destroyed
(socket closed or TLS session destroyed), the bridge returns to the
unconnected state, and a subsequent accept attempt can succeed. -/
theorem C3_orderly_close_equals_error (secure : Bool) (b : Bridge)
    (sockfd errRes : Int) (len : Nat) (aenv : AcceptEnv) (sfd : Option Int)
    (hen : b.enabled = true) (hsrv : 0 ≤ b.server_sock) (hlen : len ≠ 0)
    (hconn : (secure = false ∧ 0 ≤ b.client_sock ∧ b.tls_handle = none) ∨
             (secure = true ∧ b.tls_handle.isSome))
    (hsfd : secure = true → sfd = some sockfd ∧ 0 ≤ sockfd)
    (herr : errRes < 0)
    (hsel2 : aenv.selectRes = 1) (hacc2 : 0 ≤ aenv.acceptRes)
    (hsec2 : secure = true → aenv.tlsInitOk = true ∧ aenv.handshakeRes = 0) :
    tcp_receive_data secure ⟨sfd, 1, 0⟩ b false len =
      tcp_receive_data secure ⟨sfd, 1, errRes⟩ b false len ∧
    (tcp_receive_data secure ⟨sfd, 1, 0⟩ b false len).1 =
      (cleanup_client secure b).1 ∧
    (tcp_receive_data secure ⟨sfd, 1, 0⟩ b false len).2.1 = -1 ∧
    (tcp_receive_data secure ⟨sfd, 1, 0⟩ b false len).1.client_sock = -1 ∧
    (secure = true →
      (tcp_receive_data secure ⟨sfd, 1, 0⟩ b false len).1.tls_handle = none) ∧
    (secure = true →
      Ev.tlsConnDestroy ∈ (tcp_receive_data secure ⟨sfd, 1, 0⟩ b false len).2.2) ∧
    (secure = false →
      Ev.closeFd b.client_sock ∈
        (tcp_receive_data secure ⟨sfd, 1, 0⟩ b false len).2.2) ∧
    (tcp_handle_new_connection secure aenv
        (tcp_receive_data secure ⟨sfd, 1, 0⟩ b false len).1).2.1 = true := by
  have hconn2 : (secure = false ∧ 0 ≤ b.client_sock) ∨
      (secure = true ∧ b.tls_handle.isSome) := by
    rcases hconn with ⟨h1, h2, -⟩ | h
    · exact Or.inl ⟨h1, h2⟩
    · exact Or.inr h
  have h0 := tcp_receive_data_teardown secure ⟨sfd, 1, 0⟩ b len sockfd hen hlen
    hconn2 hsfd rfl le_rfl
  have hE := tcp_receive_data_teardown secure ⟨sfd, 1, errRes⟩ b len sockfd hen
    hlen hconn2 hsfd rfl (le_of_lt herr)
  refine ⟨by rw [h0, hE], by rw [h0], by rw [h0], ?_, ?_, ?_, ?_, ?_⟩
  · rw [h0]
    exact cleanup_client_client secure b
  · intro hs
    obtain ⟨-, hts⟩ := hconn2.resolve_left (by simp [hs])
    rw [h0, cleanup_client_tls]
    simp [hs, hts]
  · intro hs
    obtain ⟨-, hts⟩ := hconn2.resolve_left (by simp [hs])
    rw [h0]
    subst hs
    simp [cleanup_client, hts]
  · intro hs
    obtain ⟨-, hcs, -⟩ := hconn.resolve_right (by simp [hs])
    rw [h0]
    subst hs
    simp [cleanup_client, hcs]
  · rw [h0]
    have htls : (cleanup_client secure b).1.tls_handle = none := by
      rw [cleanup_client_tls]
      rcases hconn with ⟨h1, -, h3⟩ | ⟨h1, h2⟩
      · simp [h1, h3]
      · simp [h1, h2]
    exact tcp_accept_success secure aenv _
      (by rw [cleanup_client_enabled]; exact hen)
      (by rw [cleanup_client_server]; exact hsrv)
      (by rw [cleanup_client_client]; decide)
      htls hsel2 hacc2 hsec2

/-- Concrete check of C3 in plain mode: zero-byte and negative reads give
the very same outcome, the socket is closed, and a new client is then
accepted. -/
theorem C3_orderly_close_equals_error_witness :
    tcp_receive_data false ⟨none, 1, 0⟩ plainConnected false 16 =
      tcp_receive_data false ⟨none, 1, -7⟩ plainConnected false 16 ∧
    (tcp_receive_data false ⟨none, 1, 0⟩ plainConnected false 16).1 =
      (cleanup_client false plainConnected).1 ∧
    (tcp_receive_data false ⟨none, 1, 0⟩ plainConnected false 16).2.1 = -1 ∧
    (tcp_receive_data false ⟨none, 1, 0⟩ plainConnected false 16).1.client_sock = -1 ∧
    (false = true →
      (tcp_receive_data false ⟨none, 1, 0⟩ plainConnected false 16).1.tls_handle = none) ∧
    (false = true →
      Ev.tlsConnDestroy ∈
        (tcp_receive_data false ⟨none, 1, 0⟩ plainConnected false 16).2.2) ∧
    (false = false →
      Ev.closeFd plainConnected.client_sock ∈
        (tcp_receive_data false ⟨none, 1, 0⟩ plainConnected false 16).2.2) ∧
    (tcp_handle_new_connection false ⟨1, 6, true, 3, 0⟩
        (tcp_receive_data false ⟨none, 1, 0⟩ plainConnected false 16).1).2.1 = true :=
  C3_orderly_close_equals_error false plainConnected 0 (-7) 16
    ⟨1, 6, true, 3, 0⟩ none (by decide) (by decide) (by decide)
    (Or.inl ⟨rfl, by decide, rfl⟩)
    (by intro h; exact absurd h (by decide)) (by decide) rfl (by decide)
    (by intro h; exact absurd h (by decide))

/-! ## Mode uniformity (C5) -/

/-- A network read leaves the bridge unchanged or tears it down. -/
theorem tcp_receive_data_state (secure : Bool) (env : RecvEnv) (b : Bridge)
    (bufNull : Bool) (len : Nat) :
    (tcp_receive_data secure env b bufNull len).1 = b ∨
    (tcp_receive_data secure env b bufNull len).1 = (cleanup_client secure b).1 := by
  unfold tcp_receive_data
  split
  · exact Or.inl rfl
  · split
    · exact Or.inl rfl
    · split_ifs <;> first | exact Or.inl rfl | exact Or.inr rfl

/-- A network send leaves the bridge unchanged or tears it down. -/
theorem tcp_send_data_state (secure : Bool) (env : SendEnv) (b : Bridge)
    (dataNull : Bool) (len : Nat) :
    (tcp_send_data secure env b dataNull len).1 = b ∨
    (tcp_send_data secure env b dataNull len).1 = (cleanup_client secure b).1 := by
  unfold tcp_send_data
  split_ifs <;> first | exact Or.inl rfl | exact Or.inr rfl

/-- `cleanup_client` preserves the mode invariant. -/
theorem ModeInv_cleanup (secure : Bool) (b : Bridge)
    (h : ModeInv secure b) : ModeInv secure (cleanup_client secure b).1 := by
  cases secure
  · simp only [ModeInv, Bool.false_eq_true, if_false] at h ⊢
    rw [cleanup_client_tls]
    simp [h]
  · simp only [ModeInv, if_true] at h ⊢
    rw [cleanup_client_client]
    decide

/-- An accept attempt leaves the bridge unchanged, stores a TLS session
(secure mode), or stores a client socket (plain mode). -/
theorem tcp_handle_new_connection_state (secure : Bool) (env : AcceptEnv)
    (b : Bridge) :
    (tcp_handle_new_connection secure env b).1 = b ∨
    (secure = true ∧ (tcp_handle_new_connection secure env b).1 =
      { b with tls_handle := some env.tlsSession, client_sock := -1 }) ∨
    (secure = false ∧ (tcp_handle_new_connection secure env b).1 =
      { b with client_sock := env.acceptRes }) := by
  unfold tcp_handle_new_connection
  split_ifs <;>
    first
      | exact Or.inl rfl
      | exact Or.inr (Or.inl ⟨by assumption, rfl⟩)
      | exact Or.inr (Or.inr ⟨by
          rename_i hns
          exact Bool.eq_false_iff.mpr hns, rfl⟩)

/-- `tcp_handle_new_connection` preserves the mode invariant: each accept
stores exactly the connection shape the process-wide flag dictates. -/
theorem ModeInv_accept (secure : Bool) (env : AcceptEnv) (b : Bridge)
    (h : ModeInv secure b) :
    ModeInv secure (tcp_handle_new_connection secure env b).1 := by
  rcases tcp_handle_new_connection_state secure env b with
    he | ⟨hs, he⟩ | ⟨hs, he⟩ <;> rw [he]
  · exact h
  · subst hs
    simp [ModeInv]
  · subst hs
    simpa [ModeInv] using h

/-- `tcp_receive_data` preserves the mode invariant. -/
theorem ModeInv_receive (secure : Bool) (env : RecvEnv) (b : Bridge)
    (bufNull : Bool) (len : Nat) (h : ModeInv secure b) :
    ModeInv secure (tcp_receive_data secure env b bufNull len).1 := by
  rcases tcp_receive_data_state secure env b bufNull len with he | he <;> rw [he]
  · exact h
  · exact ModeInv_cleanup secure b h

/-- `tcp_send_data` preserves the mode invariant. -/
theorem ModeInv_send (secure : Bool) (env : SendEnv) (b : Bridge)
    (dataNull : Bool) (len : Nat) (h : ModeInv secure b) :
    ModeInv secure (tcp_send_data secure env b dataNull len).1 := by
  rcases tcp_send_data_state secure env b dataNull len with he | he <;> rw [he]
  · exact h
  · exact ModeInv_cleanup secure b h

/-- Direction 2 of the relay preserves the mode invariant. -/
theorem ModeInv_dir2 (secure : Bool) (bufSize : Nat) (env : RelayEnv)
    (b : Bridge) (h : ModeInv secure b) :
    ModeInv secure (process_dir2 secure bufSize env b).1 := by
  unfold process_dir2
  dsimp only
  split
  · split <;> split <;>
      first
        | exact ModeInv_send secure ⟨env.sendRes⟩ b false _ h
        | exact h
  · exact h

/-- `process_bridge_data` preserves the mode invariant. -/
theorem ModeInv_process (secure : Bool) (bufSize : Nat) (env : RelayEnv)
    (b : Bridge) (h : ModeInv secure b) :
    ModeInv secure (process_bridge_data secure bufSize env b).1 := by
  unfold process_bridge_data
  split
  · exact h
  · have h1 : ModeInv secure (process_dir1 secure bufSize env b).1 :=
      ModeInv_receive secure env.recv b false bufSize h
    exact ModeInv_dir2 secure bufSize env (process_dir1 secure bufSize env b).1 h1

/-- Every engine operation preserves the mode invariant. -/
theorem ModeInv_applyOp (secure : Bool) (op : Op) (b : Bridge)
    (h : ModeInv secure b) : ModeInv secure (applyOp secure op b) := by
  cases op with
  | acceptOp env => exact ModeInv_accept secure env b h
  | receiveOp env bufNull len => exact ModeInv_receive secure env b bufNull len h
  | sendOp env dataNull len => exact ModeInv_send secure env b dataNull len h
  | relayOp bufSize env => exact ModeInv_process secure bufSize env b h

/-- The mode invariant holds after any sequence of engine operations. -/
theorem ModeInv_applyOps (secure : Bool) (ops : List Op) (b : Bridge)
    (h : ModeInv secure b) : ModeInv secure (applyOps secure ops b) := by
  induction ops generalizing b with
  | nil => exact h
  | cons op ops ih => exact ih (applyOp secure op b) (ModeInv_applyOp secure op b h)

/-- Claim C5: the process-wide mode flag is exactly the presence of the
TLS configuration whenever `tcp_server_init` succeeds; every slot it sets
up starts unconnected; and from any unconnected start, under that flag,
no sequence of engine operations ever produces a `Plain` connection in
secure mode or a `Secure` connection in plain mode. -/
theorem C5_mode_uniformity (tlsPresent : Bool) (envs : Nat → SockEnv)
    (prevSecure : Bool) (st : UartMgrState) (ops : List Op) (b0 : Bridge)
    (h0 : b0.client_sock = -1) (h1 : b0.tls_handle = none) :
    ((tcp_server_init tlsPresent envs prevSecure st).2.2 = ESP_OK →
      (tcp_server_init tlsPresent envs prevSecure st).1 = tlsPresent) ∧
    (∀ senv c c2, tcp_server_setup senv c = some c2 →
      c2.client_sock = -1 ∧ c2.tls_handle = none) ∧
    (tlsPresent = true → ¬ holdsPlain (applyOps tlsPresent ops b0)) ∧
    (tlsPresent = false → ¬ holdsSecure (applyOps tlsPresent ops b0)) := by
  have hinv : ModeInv tlsPresent b0 := by
    cases tlsPresent
    · simpa [ModeInv] using h1
    · simp [ModeInv, h0]
  have hops := ModeInv_applyOps tlsPresent ops b0 hinv
  refine ⟨?_, ?_, ?_, ?_⟩
  · unfold tcp_server_init
    split
    · intro hok
      simp [ESP_FAIL, ESP_OK] at hok
    · split
      · intro _
        rfl
      · intro hok
        simp [ESP_FAIL, ESP_OK] at hok
  · intro senv c c2 h
    unfold tcp_server_setup at h
    split_ifs at h
    injection h with h2
    subst h2
    exact ⟨rfl, rfl⟩
  · intro hs
    subst hs
    simp only [ModeInv, if_true] at hops
    exact not_le.mpr hops
  · intro hs
    subst hs
    simp only [ModeInv, Bool.false_eq_true, if_false] at hops
    simp [holdsSecure, hops]

/-- Concrete check of C5: one secure accept never leaves a plain socket,
one plain accept never leaves a TLS handle. -/
theorem C5_mode_uniformity_witness :
    ¬ holdsPlain (applyOps true [Op.acceptOp ⟨1, 6, true, 3, 0⟩] idleBridge) ∧
    ¬ holdsSecure (applyOps false [Op.acceptOp ⟨1, 6, true, 3, 0⟩] idleBridge) := by
  have hT := C5_mode_uniformity true (fun _ => ⟨3, 0, 0⟩) false
    ⟨[], 0⟩ [Op.acceptOp ⟨1, 6, true, 3, 0⟩] idleBridge (by decide) rfl
  have hF := C5_mode_uniformity false (fun _ => ⟨3, 0, 0⟩) false
    ⟨[], 0⟩ [Op.acceptOp ⟨1, 6, true, 3, 0⟩] idleBridge (by decide) rfl
  exact ⟨hT.2.2.1 rfl, hF.2.2.2 rfl⟩

/-! ## Relay call accounting (C6) -/

/-- Tearing a connection down performs no reads, writes or queries. -/
theorem cleanup_client_counts (secure : Bool) (b : Bridge) :
    (cleanup_client secure b).2.countP Ev.isNetRead = 0 ∧
    (cleanup_client secure b).2.countP Ev.isNetSend = 0 ∧
    (cleanup_client secure b).2.countP Ev.isUartWrite = 0 ∧
    (cleanup_client secure b).2.countP Ev.isUartRead = 0 ∧
    (cleanup_client secure b).2.countP Ev.isUartAvail = 0 := by
  unfold cleanup_client
  dsimp only
  split_ifs <;>
    simp [Ev.isNetRead, Ev.isNetSend, Ev.isUartWrite, Ev.isUartRead,
          Ev.isUartAvail]

/-- One `tcp_receive_data` call performs at most one network read and no
other data call. -/
theorem tcp_receive_data_counts (secure : Bool) (env : RecvEnv) (b : Bridge)
    (bufNull : Bool) (len : Nat) :
    (tcp_receive_data secure env b bufNull len).2.2.countP Ev.isNetRead ≤ 1 ∧
    (tcp_receive_data secure env b bufNull len).2.2.countP Ev.isNetSend = 0 ∧
    (tcp_receive_data secure env b bufNull len).2.2.countP Ev.isUartWrite = 0 ∧
    (tcp_receive_data secure env b bufNull len).2.2.countP Ev.isUartRead = 0 ∧
    (tcp_receive_data secure env b bufNull len).2.2.countP Ev.isUartAvail = 0 := by
  obtain ⟨c1, c2, c3, c4, c5⟩ := cleanup_client_counts secure b
  unfold tcp_receive_data
  split
  · simp
  · split
    · simp
    · split_ifs <;>
        simp [List.countP_append, c1, c2, c3, c4, c5, Ev.isNetRead,
              Ev.isNetSend, Ev.isUartWrite, Ev.isUartRead, Ev.isUartAvail]

/-- One `tcp_send_data` call performs at most one network send and no
other data call. -/
theorem tcp_send_data_counts (secure : Bool) (env : SendEnv) (b : Bridge)
    (dataNull : Bool) (len : Nat) :
    (tcp_send_data secure env b dataNull len).2.2.countP Ev.isNetSend ≤ 1 ∧
    (tcp_send_data secure env b dataNull len).2.2.countP Ev.isNetRead = 0 ∧
    (tcp_send_data secure env b dataNull len).2.2.countP Ev.isUartWrite = 0 ∧
    (tcp_send_data secure env b dataNull len).2.2.countP Ev.isUartRead = 0 ∧
    (tcp_send_data secure env b dataNull len).2.2.countP Ev.isUartAvail = 0 := by
  obtain ⟨c1, c2, c3, c4, c5⟩ := cleanup_client_counts secure b
  unfold tcp_send_data
  split_ifs <;>
    simp [List.countP_append, c1, c2, c3, c4, c5, Ev.isNetRead,
          Ev.isNetSend, Ev.isUartWrite, Ev.isUartRead, Ev.isUartAvail]

/-- One `uart_write_data` call performs at most one device write and no
other data call. -/
theorem uart_write_data_counts (env : Int) (b : Option Bridge)
    (dataNull : Bool) (len : Nat) :
    (uart_write_data env b dataNull len).2.countP Ev.isUartWrite ≤ 1 ∧
    (uart_write_data env b dataNull len).2.countP Ev.isNetRead = 0 ∧
    (uart_write_data env b dataNull len).2.countP Ev.isNetSend = 0 ∧
    (uart_write_data env b dataNull len).2.countP Ev.isUartRead = 0 ∧
    (uart_write_data env b dataNull len).2.countP Ev.isUartAvail = 0 := by
  cases b
  · simp [uart_write_data]
  · unfold uart_write_data
    dsimp only
    split_ifs <;>
      simp [Ev.isNetRead, Ev.isNetSend, Ev.isUartWrite, Ev.isUartRead,
            Ev.isUartAvail]

/-- One `uart_read_data` call performs at most one device read and no
other data call. -/
theorem uart_read_data_counts (env : Int) (b : Option Bridge)
    (bufNull : Bool) (len : Nat) (tmo : Nat) :
    (uart_read_data env b bufNull len tmo).2.countP Ev.isUartRead ≤ 1 ∧
    (uart_read_data env b bufNull len tmo).2.countP Ev.isNetRead = 0 ∧
    (uart_read_data env b bufNull len tmo).2.countP Ev.isNetSend = 0 ∧
    (uart_read_data env b bufNull len tmo).2.countP Ev.isUartWrite = 0 ∧
    (uart_read_data env b bufNull len tmo).2.countP Ev.isUartAvail = 0 := by
  cases b
  · simp [uart_read_data]
  · unfold uart_read_data
    dsimp only
    split_ifs <;>
      simp [Ev.isNetRead, Ev.isNetSend, Ev.isUartWrite, Ev.isUartRead,
            Ev.isUartAvail]

/-- One `uart_get_available_bytes` call performs at most one query and no
other data call. -/
theorem uart_avail_counts (envRes : Int) (envCount : Nat) (b : Option Bridge)
    (availNull : Bool) :
    (uart_get_available_bytes envRes envCount b availNull).2.2.countP
      Ev.isUartAvail ≤ 1 ∧
    (uart_get_available_bytes envRes envCount b availNull).2.2.countP
      Ev.isNetRead = 0 ∧
    (uart_get_available_bytes envRes envCount b availNull).2.2.countP
      Ev.isNetSend = 0 ∧
    (uart_get_available_bytes envRes envCount b availNull).2.2.countP
      Ev.isUartWrite = 0 ∧
    (uart_get_available_bytes envRes envCount b availNull).2.2.countP
      Ev.isUartRead = 0 := by
  cases b
  · simp [uart_get_available_bytes]
  · unfold uart_get_available_bytes
    dsimp only
    split_ifs <;>
      simp [Ev.isNetRead, Ev.isNetSend, Ev.isUartWrite, Ev.isUartRead,
            Ev.isUartAvail]

/-- On an enabled bridge with a valid output pointer, the availability
query is made exactly once. -/
theorem uart_avail_count_enabled (envRes : Int) (envCount : Nat) (b : Bridge)
    (hen : b.enabled = true) :
    (uart_get_available_bytes envRes envCount (some b) false).2.2.countP
      Ev.isUartAvail = 1 := by
  unfold uart_get_available_bytes
  dsimp only
  rw [if_neg (by simp [hen])]
  simp [Ev.isUartAvail]

/-- A network read never changes the enabled flag. -/
theorem tcp_receive_data_enabled (secure : Bool) (env : RecvEnv) (b : Bridge)
    (bufNull : Bool) (len : Nat) :
    (tcp_receive_data secure env b bufNull len).1.enabled = b.enabled := by
  rcases tcp_receive_data_state secure env b bufNull len with he | he <;> rw [he]
  exact cleanup_client_enabled secure b

/-- Direction 1 of a relay pass: at most one network read, at most one
device write, and nothing of direction 2. -/
theorem process_dir1_counts (secure : Bool) (bufSize : Nat) (env : RelayEnv)
    (b : Bridge) :
    (process_dir1 secure bufSize env b).2.2.countP Ev.isNetRead ≤ 1 ∧
    (process_dir1 secure bufSize env b).2.2.countP Ev.isUartWrite ≤ 1 ∧
    (process_dir1 secure bufSize env b).2.2.countP Ev.isNetSend = 0 ∧
    (process_dir1 secure bufSize env b).2.2.countP Ev.isUartRead = 0 ∧
    (process_dir1 secure bufSize env b).2.2.countP Ev.isUartAvail = 0 := by
  obtain ⟨r1, r2, r3, r4, r5⟩ :=
    tcp_receive_data_counts secure env.recv b false bufSize
  obtain ⟨w1, w2, w3, w4, w5⟩ := uart_write_data_counts env.uartWriteRes
    (some (tcp_receive_data secure env.recv b false bufSize).1) false
    (tcp_receive_data secure env.recv b false bufSize).2.1.toNat
  unfold process_dir1
  dsimp only
  split_ifs <;> simp only [List.countP_append, List.countP_nil] <;> omega

/-- Direction 2 of a relay pass on an enabled bridge: exactly one
availability query, at most one device read, at most one network send,
and nothing of direction 1. -/
theorem process_dir2_counts (secure : Bool) (bufSize : Nat) (env : RelayEnv)
    (b : Bridge) (hen : b.enabled = true) :
    (process_dir2 secure bufSize env b).2.countP Ev.isUartAvail = 1 ∧
    (process_dir2 secure bufSize env b).2.countP Ev.isUartRead ≤ 1 ∧
    (process_dir2 secure bufSize env b).2.countP Ev.isNetSend ≤ 1 ∧
    (process_dir2 secure bufSize env b).2.countP Ev.isNetRead = 0 ∧
    (process_dir2 secure bufSize env b).2.countP Ev.isUartWrite = 0 := by
  obtain ⟨a1, a2, a3, a4, a5⟩ :=
    uart_avail_counts env.availRes env.availCount (some b) false
  have a6 := uart_avail_count_enabled env.availRes env.availCount b hen
  unfold process_dir2
  dsimp only
  generalize (if (uart_get_available_bytes env.availRes env.availCount (some b)
        false).2.1 > bufSize then bufSize
      else (uart_get_available_bytes env.availRes env.availCount (some b)
        false).2.1) = tr
  obtain ⟨u1, u2, u3, u4, u5⟩ :=
    uart_read_data_counts env.uartReadRes (some b) false tr 0
  obtain ⟨s1, s2, s3, s4, s5⟩ := tcp_send_data_counts secure ⟨env.sendRes⟩ b
    false (uart_read_data env.uartReadRes (some b) false tr 0).1.toNat
  split_ifs <;> simp only [List.countP_append, List.countP_nil] <;> omega

/-- Claim C6: a relay pass on a connected bridge is direction 1 (network
read, then device write) followed by direction 2 (availability query,
device read, network send); direction 2 runs exactly once whatever
direction 1's outcome, every direction-1 call precedes every direction-2
call, and each kind of read or write call happens at most once — no
internal retry loop. -/
theorem C6_relay_pass_structure (secure : Bool) (bufSize : Nat)
    (env : RelayEnv) (b : Bridge) (hen : b.enabled = true)
    (hconn : tcp_is_client_connected secure b = true) :
    process_bridge_data secure bufSize env b =
      ((process_dir2 secure bufSize env (process_dir1 secure bufSize env b).1).1,
       (process_dir1 secure bufSize env b).2.2 ++
         (process_dir2 secure bufSize env (process_dir1 secure bufSize env b).1).2) ∧
    (∀ e ∈ (process_dir1 secure bufSize env b).2.2,
      Ev.isUartAvail e = false ∧ Ev.isUartRead e = false ∧
        Ev.isNetSend e = false) ∧
    (∀ e ∈ (process_dir2 secure bufSize env (process_dir1 secure bufSize env b).1).2,
      Ev.isNetRead e = false ∧ Ev.isUartWrite e = false) ∧
    (process_bridge_data secure bufSize env b).2.countP Ev.isNetRead ≤ 1 ∧
    (process_bridge_data secure bufSize env b).2.countP Ev.isUartWrite ≤ 1 ∧
    (process_bridge_data secure bufSize env b).2.countP Ev.isUartRead ≤ 1 ∧
    (process_bridge_data secure bufSize env b).2.countP Ev.isNetSend ≤ 1 ∧
    (process_bridge_data secure bufSize env b).2.countP Ev.isUartAvail = 1 := by
  have hb1 : (process_dir1 secure bufSize env b).1.enabled = true := by
    have hd : (process_dir1 secure bufSize env b).1 =
        (tcp_receive_data secure env.recv b false bufSize).1 := rfl
    rw [hd, tcp_receive_data_enabled]
    exact hen
  obtain ⟨d1, d2, d3, d4, d5⟩ := process_dir1_counts secure bufSize env b
  obtain ⟨e1, e2, e3, e4, e5⟩ := process_dir2_counts secure bufSize env
    (process_dir1 secure bufSize env b).1 hb1
  have hsplit : process_bridge_data secure bufSize env b =
      ((process_dir2 secure bufSize env (process_dir1 secure bufSize env b).1).1,
       (process_dir1 secure bufSize env b).2.2 ++
         (process_dir2 secure bufSize env (process_dir1 secure bufSize env b).1).2) := by
    unfold process_bridge_data
    rw [if_neg (by simp [hen, hconn])]
  refine ⟨hsplit, ?_, ?_, ?_, ?_, ?_, ?_, ?_⟩
  · intro e he
    exact ⟨by simpa using List.countP_eq_zero.mp d5 e he,
           by simpa using List.countP_eq_zero.mp d4 e he,
           by simpa using List.countP_eq_zero.mp d3 e he⟩
  · intro e he
    exact ⟨by simpa using List.countP_eq_zero.mp e4 e he,
           by simpa using List.countP_eq_zero.mp e5 e he⟩
  all_goals rw [hsplit]
  all_goals dsimp only
  all_goals rw [List.countP_append]
  all_goals omega

/-- Concrete check of C6: a full plain-mode relay pass with data in both
directions makes at most one call of each kind and exactly one
availability query. -/
theorem C6_relay_pass_structure_witness :
    (process_bridge_data false 16 ⟨⟨none, 1, 4⟩, -1, 0, 5, 3, 2⟩
      plainConnected).2.countP Ev.isNetRead ≤ 1 ∧
    (process_bridge_data false 16 ⟨⟨none, 1, 4⟩, -1, 0, 5, 3, 2⟩
      plainConnected).2.countP Ev.isUartWrite ≤ 1 ∧
    (process_bridge_data false 16 ⟨⟨none, 1, 4⟩, -1, 0, 5, 3, 2⟩
      plainConnected).2.countP Ev.isUartRead ≤ 1 ∧
    (process_bridge_data false 16 ⟨⟨none, 1, 4⟩, -1, 0, 5, 3, 2⟩
      plainConnected).2.countP Ev.isNetSend ≤ 1 ∧
    (process_bridge_data false 16 ⟨⟨none, 1, 4⟩, -1, 0, 5, 3, 2⟩
      plainConnected).2.countP Ev.isUartAvail = 1 := by
  have h := C6_relay_pass_structure false 16 ⟨⟨none, 1, 4⟩, -1, 0, 5, 3, 2⟩
    plainConnected (by decide) (by decide)
  exact ⟨h.2.2.2.1, h.2.2.2.2.1, h.2.2.2.2.2.1, h.2.2.2.2.2.2.1,
         h.2.2.2.2.2.2.2⟩

/-! ## Registry initialization (C7, C1) -/

/-- A failed `init_bridge` leaves the fresh slot disabled; a successful
one enables it: the slot is enabled exactly when ESP_OK was returned. -/
theorem init_bridge_enabled_iff (cfg : Config) (env : InitEnv) (i : Nat) :
    ((init_bridge cfg env i initialBridge).1.enabled = true) ↔
      (init_bridge cfg env i initialBridge).2 = ESP_OK := by
  unfold init_bridge
  dsimp only
  split_ifs <;>
    simp_all [initialBridge, ESP_OK, ESP_FAIL, ESP_ERR_NO_MEM,
              ESP_ERR_INVALID_ARG]

/-- Characterization of the init loop of `uart_manager_init`: slot `j`
holds the outcome of `init_bridge` on a fresh slot for `j < n`, stays the
fresh slot otherwise, and the counter counts the successful indices. -/
theorem uart_init_fold_spec (cfg : Config) (envs : Nat → InitEnv) (m : Nat) :
    ∀ n, n ≤ m →
      (((List.range n).foldl (uart_init_step cfg envs)
          (List.replicate m initialBridge, 0)).1.length = m) ∧
      (∀ j, (j < n →
          ((List.range n).foldl (uart_init_step cfg envs)
            (List.replicate m initialBridge, 0)).1[j]? =
            some (init_bridge cfg (envs j) j initialBridge).1) ∧
        (n ≤ j →
          ((List.range n).foldl (uart_init_step cfg envs)
            (List.replicate m initialBridge, 0)).1[j]? =
            (List.replicate m initialBridge)[j]?)) ∧
      ((List.range n).foldl (uart_init_step cfg envs)
          (List.replicate m initialBridge, 0)).2 =
        (List.range n).countP
          (fun i => decide
            ((init_bridge cfg (envs i) i initialBridge).2 = ESP_OK)) := by
  intro n
  induction n with
  | zero =>
    intro _
    refine ⟨by simp, ?_, by simp⟩
    intro j
    exact ⟨fun h => absurd h (Nat.not_lt_zero j), fun _ => rfl⟩
  | succ n ih =>
    intro hnm
    obtain ⟨ihlen, ihget, ihcount⟩ := ih (Nat.le_of_succ_le hnm)
    set A := (List.range n).foldl (uart_init_step cfg envs)
      (List.replicate m initialBridge, 0) with hA
    have hfold : (List.range (n + 1)).foldl (uart_init_step cfg envs)
        (List.replicate m initialBridge, 0) = uart_init_step cfg envs A n := by
      rw [List.range_succ, List.foldl_append]
      rfl
    have hnm2 : n < m := Nat.lt_of_lt_of_le (Nat.lt_succ_self n) hnm
    have hAn : A.1[n]? = some initialBridge := by
      rw [(ihget n).2 le_rfl]
      simp [List.getElem?_replicate, hnm2]
    have hstep : uart_init_step cfg envs A n =
        (A.1.set n (init_bridge cfg (envs n) n initialBridge).1,
         if (init_bridge cfg (envs n) n initialBridge).2 = ESP_OK
         then A.2 + 1 else A.2) := by
      unfold uart_init_step
      rw [hAn]
    rw [hfold, hstep]
    refine ⟨by simp [List.length_set, ihlen], ?_, ?_⟩
    · intro j
      constructor
      · intro hj
        rcases Nat.lt_succ_iff_lt_or_eq.mp hj with hj | rfl
        · rw [List.getElem?_set_ne (Nat.ne_of_lt hj).symm]
          exact (ihget j).1 hj
        · rw [List.getElem?_set_eq_of_lt]
          rw [ihlen]
          exact hnm2
      · intro hj
        rw [List.getElem?_set_ne (Nat.ne_of_lt (Nat.lt_of_succ_le hj))]
        exact (ihget j).2 (Nat.le_of_succ_le hj)
    · rw [List.range_succ, List.countP_append, ← ihcount]
      by_cases hp : (init_bridge cfg (envs n) n initialBridge).2 = ESP_OK
      · simp [hp]
      · simp [hp]

/-- Claim C7: `uart_manager_init` returns ESP_OK exactly when at least
one bridge ended up enabled; each slot's outcome depends only on its own
init results (a failed bridge stays disabled and does not stop the
others), and a slot is enabled exactly when its init_bridge succeeded. -/
theorem C7_uart_manager_init_partial (cfg : Config) (envs : Nat → InitEnv) :
    ((uart_manager_init cfg envs).2 = ESP_OK ↔
      0 < (uart_manager_init cfg envs).1.active_bridges) ∧
    ((uart_manager_init cfg envs).2 = ESP_OK ↔
      ∃ b ∈ (uart_manager_init cfg envs).1.bridges, b.enabled = true) ∧
    (∀ i, i < clampedBridges cfg →
      (uart_manager_init cfg envs).1.bridges[i]? =
        some (init_bridge cfg (envs i) i initialBridge).1 ∧
      (((init_bridge cfg (envs i) i initialBridge).1.enabled = true) ↔
        (init_bridge cfg (envs i) i initialBridge).2 = ESP_OK)) := by
  have hclamp : clampedBridges cfg ≤ cfg.availableBridgeUarts := by
    unfold clampedBridges
    split <;> omega
  obtain ⟨hlen, hget, hcount⟩ :=
    uart_init_fold_spec cfg envs cfg.availableBridgeUarts
      (clampedBridges cfg) hclamp
  set F := (List.range (clampedBridges cfg)).foldl (uart_init_step cfg envs)
    (List.replicate cfg.availableBridgeUarts initialBridge, 0) with hF
  have hres : uart_manager_init cfg envs =
      if F.2 = 0 then ({ bridges := F.1, active_bridges := F.2 }, ESP_FAIL)
      else ({ bridges := F.1, active_bridges := F.2 }, ESP_OK) := by
    unfold uart_manager_init
    rfl
  have hbr : (uart_manager_init cfg envs).1.bridges = F.1 := by
    rw [hres]
    split_ifs <;> rfl
  have hact : (uart_manager_init cfg envs).1.active_bridges = F.2 := by
    rw [hres]
    split_ifs <;> rfl
  have hok : ((uart_manager_init cfg envs).2 = ESP_OK) ↔ F.2 ≠ 0 := by
    rw [hres]
    split_ifs with h2
    · simp [ESP_FAIL, ESP_OK, h2]
    · simp [ESP_OK, h2]
  have henab : (∃ b ∈ F.1, b.enabled = true) ↔ F.2 ≠ 0 := by
    constructor
    · rintro ⟨b, hb, hben⟩
      obtain ⟨j, hjlen, hjget⟩ := List.getElem_of_mem hb
      have hj? : F.1[j]? = some b := by
        rw [List.getElem?_eq_getElem hjlen]
        exact congrArg some hjget
      by_cases hjn : j < clampedBridges cfg
      · have := (hget j).1 hjn
        rw [hj?] at this
        injection this with hbe
        rw [hbe] at hben
        have hsucc := (init_bridge_enabled_iff cfg (envs j) j).mp hben
        rw [hcount]
        intro hzero
        have := List.countP_eq_zero.mp hzero j (by
          simp [List.mem_range, hjn])
        simp [hsucc] at this
      · have := (hget j).2 (Nat.le_of_not_lt hjn)
        rw [hj?] at this
        have hjm : j < cfg.availableBridgeUarts := by
          rw [← hlen]
          exact hjlen
        rw [List.getElem?_replicate, if_pos hjm] at this
        injection this with hbe
        rw [hbe] at hben
        simp [initialBridge] at hben
    · intro hnz
      rw [hcount] at hnz
      have hpos : 0 < (List.range (clampedBridges cfg)).countP
          (fun i => decide
            ((init_bridge cfg (envs i) i initialBridge).2 = ESP_OK)) :=
        Nat.pos_of_ne_zero hnz
      obtain ⟨i, hi, hp⟩ := List.countP_pos_iff.mp hpos
      have hin : i < clampedBridges cfg := List.mem_range.mp hi
      have hslot := (hget i).1 hin
      refine ⟨(init_bridge cfg (envs i) i initialBridge).1, ?_, ?_⟩
      · have := List.getElem?_eq_some.mp hslot
        obtain ⟨hlt, hval⟩ := this
        rw [← hval]
        exact List.getElem_mem hlt
      · exact (init_bridge_enabled_iff cfg (envs i) i).mpr (by simpa using hp)
  refine ⟨?_, ?_, ?_⟩
  · rw [hok, hact]
    omega
  · rw [hok, hbr]
    exact henab.symm
  · intro i hi
    refine ⟨?_, init_bridge_enabled_iff cfg (envs i) i⟩
    rw [hbr]
    exact (hget i).1 hi

/-- Concrete check of C7: with two configured bridges where the first
fails driver install and the second succeeds, init succeeds and slot 1 is
enabled. -/
theorem C7_uart_manager_init_partial_witness :
    (uart_manager_init
      ⟨2, 2, 3, fun _ => ⟨10, 9, 115200, 9001⟩⟩
      (fun i => if i = 0 then ⟨true, true, ESP_FAIL, 0, 0⟩
                else ⟨true, true, 0, 0, 0⟩)).2 = ESP_OK := by
  have h := C7_uart_manager_init_partial
    ⟨2, 2, 3, fun _ => ⟨10, 9, 115200, 9001⟩⟩
    (fun i => if i = 0 then ⟨true, true, ESP_FAIL, 0, 0⟩
              else ⟨true, true, 0, 0, 0⟩)
  exact h.1.mpr (by decide)

/-- Claim C1 fails on the code: when bridge 0 fails to initialize and
bridge 1 succeeds, `uart_manager_init` reports success with
`active_bridges = 1`, bridge 1 is enabled — yet both
`tcp_handle_new_connections` and `tcp_process_data`, which loop over the
first `uart_manager_get_active_count()` array slots, never invoke the
per-bridge accept or relay for any bridge at all: the enabled bridge at
index 1 is outside the loop bound. -/
theorem C1_active_count_skips_enabled_bridge :
    (uart_manager_init cfgTwoBridges envsFirstFails).2 = ESP_OK ∧
    uart_manager_get_active_count
      (uart_manager_init cfgTwoBridges envsFirstFails).1 = 1 ∧
    ((uart_manager_init cfgTwoBridges envsFirstFails).1.bridges[1]?).map
      (fun b => b.enabled) = some true ∧
    (tcp_handle_new_connections false (fun _ => ⟨1, 6, true, 0, 0⟩)
      (uart_manager_init cfgTwoBridges envsFirstFails).1).2 = [] ∧
    (tcp_process_data false 16 (fun _ => ⟨⟨none, 1, 4⟩, 4, 0, 0, 0, 0⟩)
      (uart_manager_init cfgTwoBridges envsFirstFails).1).2 = [] := by
  decide

end SSCTE
